import Mathlib

/-!
# Verification of the COOLINGTANKS scraper core (src/scraper.py)

This file shallowly embeds the two pieces of logic of `src/scraper.py`:

* `extract_latest` (lines 12-32): three independent regex scans over the raw
  page text, producing `(temperature_c, timestamp, status)`.  Page text is
  modelled as `List Char`; each Python `re.search` is modelled as a scanner
  (`scanFrom`) that tries the pattern matcher at every start position, left to
  right, returning the first success — exactly `re.search`'s leftmost-match
  semantics.  The character classes `\s`, `\d`, `\w` are the full Unicode
  classes of Python `str` patterns, embedded as codepoint-range tables
  generated from CPython 3.11 (Unicode 14); `re.IGNORECASE` literal matching
  of the ASCII-letter pattern words is embedded through the Unicode simple
  lowercase mapping restricted to ASCII targets (the only non-ASCII
  characters whose lowercase is ASCII are U+212A KELVIN SIGN and U+0130
  LATIN CAPITAL I WITH DOT ABOVE) plus sre's i/ı and s/ſ equivalence
  classes.  For each of the three concrete patterns the greedy sub-matchers
  below are exact (no backtracking can change the outcome) because every
  repeated character class in them is followed by a character that the
  class cannot match.  `float(...)` on the matched group is modelled as the
  exact rational value of the decimal numeral, together with
  `floatOverflows`, the predicate describing on which values IEEE-754
  binary64 `float()` overflows to infinity.


* `post_to_base44`'s parameter construction (lines 64-84) and `main`'s
  forwarding loop (lines 120-127).  The Python dict (insertion ordered) is a
  `List (String × PVal)`; the network call `requests.get` is an oracle that
  either returns a status/body or raises (`NetResult.exc`).  The loop in
  `main` has no try/except: an exception propagates and terminates the run,
  which the model records as `completed = false` with no further processing.
-/

/-- Membership of a codepoint in a list of inclusive codepoint ranges. -/
def inRanges (rs : List (Nat × Nat)) (n : Nat) : Bool :=
  rs.any fun p => p.1 ≤ n && n ≤ p.2

/-- Two range lists cover disjoint sets of codepoints. -/
def rangesDisjoint (rs ss : List (Nat × Nat)) : Bool :=
  rs.all fun r => ss.all fun s => r.2 < s.1 || s.2 < r.1

/-- Codepoint ranges matched by Python `re`'s `\\s` for `str` patterns (Unicode whitespace; generated from CPython 3.11 / Unicode 14). -/
def spaceRanges : List (Nat × Nat) :=
  [(9, 13), (28, 32), (133, 133), (160, 160), (5760, 5760), (8192, 8202), (8232, 8233), (8239, 8239),
   (8287, 8287), (12288, 12288)]

/-- Codepoint ranges matched by Python `re`'s `\\d` for `str` patterns (Unicode category Nd; generated from CPython 3.11 / Unicode 14).  Every range is an aligned decade: the digit value of a character is its offset from the range start. -/
def digitRanges : List (Nat × Nat) :=
  [(48, 57), (1632, 1641), (1776, 1785), (1984, 1993), (2406, 2415), (2534, 2543), (2662, 2671), (2790, 2799),
   (2918, 2927), (3046, 3055), (3174, 3183), (3302, 3311), (3430, 3439), (3558, 3567), (3664, 3673), (3792, 3801),
   (3872, 3881), (4160, 4169), (4240, 4249), (6112, 6121), (6160, 6169), (6470, 6479), (6608, 6617), (6784, 6793),
   (6800, 6809), (6992, 7001), (7088, 7097), (7232, 7241), (7248, 7257), (42528, 42537), (43216, 43225), (43264, 43273),
   (43472, 43481), (43504, 43513), (43600, 43609), (44016, 44025), (65296, 65305), (66720, 66729), (68912, 68921), (69734, 69743),
   (69872, 69881), (69942, 69951), (70096, 70105), (70384, 70393), (70736, 70745), (70864, 70873), (71248, 71257), (71360, 71369),
   (71472, 71481), (71904, 71913), (72016, 72025), (72784, 72793), (73040, 73049), (73120, 73129), (92768, 92777), (92864, 92873),
   (93008, 93017), (120782, 120831), (123200, 123209), (123632, 123641), (125264, 125273), (130032, 130041)]

/-- Codepoint ranges matched by Python `re`'s `\\w` for `str` patterns (Unicode alphanumerics plus underscore; generated from CPython 3.11 / Unicode 14). -/
def wordRanges : List (Nat × Nat) :=
  [(48, 57), (65, 90), (95, 95), (97, 122), (170, 170), (178, 179), (181, 181), (185, 186),
   (188, 190), (192, 214), (216, 246), (248, 705), (710, 721), (736, 740), (748, 748), (750, 750),
   (880, 884), (886, 887), (890, 893), (895, 895), (902, 902), (904, 906), (908, 908), (910, 929),
   (931, 1013), (1015, 1153), (1162, 1327), (1329, 1366), (1369, 1369), (1376, 1416), (1488, 1514), (1519, 1522),
   (1568, 1610), (1632, 1641), (1646, 1647), (1649, 1747), (1749, 1749), (1765, 1766), (1774, 1788), (1791, 1791),
   (1808, 1808), (1810, 1839), (1869, 1957), (1969, 1969), (1984, 2026), (2036, 2037), (2042, 2042), (2048, 2069),
   (2074, 2074), (2084, 2084), (2088, 2088), (2112, 2136), (2144, 2154), (2160, 2183), (2185, 2190), (2208, 2249),
   (2308, 2361), (2365, 2365), (2384, 2384), (2392, 2401), (2406, 2415), (2417, 2432), (2437, 2444), (2447, 2448),
   (2451, 2472), (2474, 2480), (2482, 2482), (2486, 2489), (2493, 2493), (2510, 2510), (2524, 2525), (2527, 2529),
   (2534, 2545), (2548, 2553), (2556, 2556), (2565, 2570), (2575, 2576), (2579, 2600), (2602, 2608), (2610, 2611),
   (2613, 2614), (2616, 2617), (2649, 2652), (2654, 2654), (2662, 2671), (2674, 2676), (2693, 2701), (2703, 2705),
   (2707, 2728), (2730, 2736), (2738, 2739), (2741, 2745), (2749, 2749), (2768, 2768), (2784, 2785), (2790, 2799),
   (2809, 2809), (2821, 2828), (2831, 2832), (2835, 2856), (2858, 2864), (2866, 2867), (2869, 2873), (2877, 2877),
   (2908, 2909), (2911, 2913), (2918, 2927), (2929, 2935), (2947, 2947), (2949, 2954), (2958, 2960), (2962, 2965),
   (2969, 2970), (2972, 2972), (2974, 2975), (2979, 2980), (2984, 2986), (2990, 3001), (3024, 3024), (3046, 3058),
   (3077, 3084), (3086, 3088), (3090, 3112), (3114, 3129), (3133, 3133), (3160, 3162), (3165, 3165), (3168, 3169),
   (3174, 3183), (3192, 3198), (3200, 3200), (3205, 3212), (3214, 3216), (3218, 3240), (3242, 3251), (3253, 3257),
   (3261, 3261), (3293, 3294), (3296, 3297), (3302, 3311), (3313, 3314), (3332, 3340), (3342, 3344), (3346, 3386),
   (3389, 3389), (3406, 3406), (3412, 3414), (3416, 3425), (3430, 3448), (3450, 3455), (3461, 3478), (3482, 3505),
   (3507, 3515), (3517, 3517), (3520, 3526), (3558, 3567), (3585, 3632), (3634, 3635), (3648, 3654), (3664, 3673),
   (3713, 3714), (3716, 3716), (3718, 3722), (3724, 3747), (3749, 3749), (3751, 3760), (3762, 3763), (3773, 3773),
   (3776, 3780), (3782, 3782), (3792, 3801), (3804, 3807), (3840, 3840), (3872, 3891), (3904, 3911), (3913, 3948),
   (3976, 3980), (4096, 4138), (4159, 4169), (4176, 4181), (4186, 4189), (4193, 4193), (4197, 4198), (4206, 4208),
   (4213, 4225), (4238, 4238), (4240, 4249), (4256, 4293), (4295, 4295), (4301, 4301), (4304, 4346), (4348, 4680),
   (4682, 4685), (4688, 4694), (4696, 4696), (4698, 4701), (4704, 4744), (4746, 4749), (4752, 4784), (4786, 4789),
   (4792, 4798), (4800, 4800), (4802, 4805), (4808, 4822), (4824, 4880), (4882, 4885), (4888, 4954), (4969, 4988),
   (4992, 5007), (5024, 5109), (5112, 5117), (5121, 5740), (5743, 5759), (5761, 5786), (5792, 5866), (5870, 5880),
   (5888, 5905), (5919, 5937), (5952, 5969), (5984, 5996), (5998, 6000), (6016, 6067), (6103, 6103), (6108, 6108),
   (6112, 6121), (6128, 6137), (6160, 6169), (6176, 6264), (6272, 6276), (6279, 6312), (6314, 6314), (6320, 6389),
   (6400, 6430), (6470, 6509), (6512, 6516), (6528, 6571), (6576, 6601), (6608, 6618), (6656, 6678), (6688, 6740),
   (6784, 6793), (6800, 6809), (6823, 6823), (6917, 6963), (6981, 6988), (6992, 7001), (7043, 7072), (7086, 7141),
   (7168, 7203), (7232, 7241), (7245, 7293), (7296, 7304), (7312, 7354), (7357, 7359), (7401, 7404), (7406, 7411),
   (7413, 7414), (7418, 7418), (7424, 7615), (7680, 7957), (7960, 7965), (7968, 8005), (8008, 8013), (8016, 8023),
   (8025, 8025), (8027, 8027), (8029, 8029), (8031, 8061), (8064, 8116), (8118, 8124), (8126, 8126), (8130, 8132),
   (8134, 8140), (8144, 8147), (8150, 8155), (8160, 8172), (8178, 8180), (8182, 8188), (8304, 8305), (8308, 8313),
   (8319, 8329), (8336, 8348), (8450, 8450), (8455, 8455), (8458, 8467), (8469, 8469), (8473, 8477), (8484, 8484),
   (8486, 8486), (8488, 8488), (8490, 8493), (8495, 8505), (8508, 8511), (8517, 8521), (8526, 8526), (8528, 8585),
   (9312, 9371), (9450, 9471), (10102, 10131), (11264, 11492), (11499, 11502), (11506, 11507), (11517, 11517), (11520, 11557),
   (11559, 11559), (11565, 11565), (11568, 11623), (11631, 11631), (11648, 11670), (11680, 11686), (11688, 11694), (11696, 11702),
   (11704, 11710), (11712, 11718), (11720, 11726), (11728, 11734), (11736, 11742), (11823, 11823), (12293, 12295), (12321, 12329),
   (12337, 12341), (12344, 12348), (12353, 12438), (12445, 12447), (12449, 12538), (12540, 12543), (12549, 12591), (12593, 12686),
   (12690, 12693), (12704, 12735), (12784, 12799), (12832, 12841), (12872, 12879), (12881, 12895), (12928, 12937), (12977, 12991),
   (13312, 19903), (19968, 42124), (42192, 42237), (42240, 42508), (42512, 42539), (42560, 42606), (42623, 42653), (42656, 42735),
   (42775, 42783), (42786, 42888), (42891, 42954), (42960, 42961), (42963, 42963), (42965, 42969), (42994, 43009), (43011, 43013),
   (43015, 43018), (43020, 43042), (43056, 43061), (43072, 43123), (43138, 43187), (43216, 43225), (43250, 43255), (43259, 43259),
   (43261, 43262), (43264, 43301), (43312, 43334), (43360, 43388), (43396, 43442), (43471, 43481), (43488, 43492), (43494, 43518),
   (43520, 43560), (43584, 43586), (43588, 43595), (43600, 43609), (43616, 43638), (43642, 43642), (43646, 43695), (43697, 43697),
   (43701, 43702), (43705, 43709), (43712, 43712), (43714, 43714), (43739, 43741), (43744, 43754), (43762, 43764), (43777, 43782),
   (43785, 43790), (43793, 43798), (43808, 43814), (43816, 43822), (43824, 43866), (43868, 43881), (43888, 44002), (44016, 44025),
   (44032, 55203), (55216, 55238), (55243, 55291), (63744, 64109), (64112, 64217), (64256, 64262), (64275, 64279), (64285, 64285),
   (64287, 64296), (64298, 64310), (64312, 64316), (64318, 64318), (64320, 64321), (64323, 64324), (64326, 64433), (64467, 64829),
   (64848, 64911), (64914, 64967), (65008, 65019), (65136, 65140), (65142, 65276), (65296, 65305), (65313, 65338), (65345, 65370),
   (65382, 65470), (65474, 65479), (65482, 65487), (65490, 65495), (65498, 65500), (65536, 65547), (65549, 65574), (65576, 65594),
   (65596, 65597), (65599, 65613), (65616, 65629), (65664, 65786), (65799, 65843), (65856, 65912), (65930, 65931), (66176, 66204),
   (66208, 66256), (66273, 66299), (66304, 66339), (66349, 66378), (66384, 66421), (66432, 66461), (66464, 66499), (66504, 66511),
   (66513, 66517), (66560, 66717), (66720, 66729), (66736, 66771), (66776, 66811), (66816, 66855), (66864, 66915), (66928, 66938),
   (66940, 66954), (66956, 66962), (66964, 66965), (66967, 66977), (66979, 66993), (66995, 67001), (67003, 67004), (67072, 67382),
   (67392, 67413), (67424, 67431), (67456, 67461), (67463, 67504), (67506, 67514), (67584, 67589), (67592, 67592), (67594, 67637),
   (67639, 67640), (67644, 67644), (67647, 67669), (67672, 67702), (67705, 67742), (67751, 67759), (67808, 67826), (67828, 67829),
   (67835, 67867), (67872, 67897), (67968, 68023), (68028, 68047), (68050, 68096), (68112, 68115), (68117, 68119), (68121, 68149),
   (68160, 68168), (68192, 68222), (68224, 68255), (68288, 68295), (68297, 68324), (68331, 68335), (68352, 68405), (68416, 68437),
   (68440, 68466), (68472, 68497), (68521, 68527), (68608, 68680), (68736, 68786), (68800, 68850), (68858, 68899), (68912, 68921),
   (69216, 69246), (69248, 69289), (69296, 69297), (69376, 69415), (69424, 69445), (69457, 69460), (69488, 69505), (69552, 69579),
   (69600, 69622), (69635, 69687), (69714, 69743), (69745, 69746), (69749, 69749), (69763, 69807), (69840, 69864), (69872, 69881),
   (69891, 69926), (69942, 69951), (69956, 69956), (69959, 69959), (69968, 70002), (70006, 70006), (70019, 70066), (70081, 70084),
   (70096, 70106), (70108, 70108), (70113, 70132), (70144, 70161), (70163, 70187), (70272, 70278), (70280, 70280), (70282, 70285),
   (70287, 70301), (70303, 70312), (70320, 70366), (70384, 70393), (70405, 70412), (70415, 70416), (70419, 70440), (70442, 70448),
   (70450, 70451), (70453, 70457), (70461, 70461), (70480, 70480), (70493, 70497), (70656, 70708), (70727, 70730), (70736, 70745),
   (70751, 70753), (70784, 70831), (70852, 70853), (70855, 70855), (70864, 70873), (71040, 71086), (71128, 71131), (71168, 71215),
   (71236, 71236), (71248, 71257), (71296, 71338), (71352, 71352), (71360, 71369), (71424, 71450), (71472, 71483), (71488, 71494),
   (71680, 71723), (71840, 71922), (71935, 71942), (71945, 71945), (71948, 71955), (71957, 71958), (71960, 71983), (71999, 71999),
   (72001, 72001), (72016, 72025), (72096, 72103), (72106, 72144), (72161, 72161), (72163, 72163), (72192, 72192), (72203, 72242),
   (72250, 72250), (72272, 72272), (72284, 72329), (72349, 72349), (72368, 72440), (72704, 72712), (72714, 72750), (72768, 72768),
   (72784, 72812), (72818, 72847), (72960, 72966), (72968, 72969), (72971, 73008), (73030, 73030), (73040, 73049), (73056, 73061),
   (73063, 73064), (73066, 73097), (73112, 73112), (73120, 73129), (73440, 73458), (73648, 73648), (73664, 73684), (73728, 74649),
   (74752, 74862), (74880, 75075), (77712, 77808), (77824, 78894), (82944, 83526), (92160, 92728), (92736, 92766), (92768, 92777),
   (92784, 92862), (92864, 92873), (92880, 92909), (92928, 92975), (92992, 92995), (93008, 93017), (93019, 93025), (93027, 93047),
   (93053, 93071), (93760, 93846), (93952, 94026), (94032, 94032), (94099, 94111), (94176, 94177), (94179, 94179), (94208, 100343),
   (100352, 101589), (101632, 101640), (110576, 110579), (110581, 110587), (110589, 110590), (110592, 110882), (110928, 110930), (110948, 110951),
   (110960, 111355), (113664, 113770), (113776, 113788), (113792, 113800), (113808, 113817), (119520, 119539), (119648, 119672), (119808, 119892),
   (119894, 119964), (119966, 119967), (119970, 119970), (119973, 119974), (119977, 119980), (119982, 119993), (119995, 119995), (119997, 120003),
   (120005, 120069), (120071, 120074), (120077, 120084), (120086, 120092), (120094, 120121), (120123, 120126), (120128, 120132), (120134, 120134),
   (120138, 120144), (120146, 120485), (120488, 120512), (120514, 120538), (120540, 120570), (120572, 120596), (120598, 120628), (120630, 120654),
   (120656, 120686), (120688, 120712), (120714, 120744), (120746, 120770), (120772, 120779), (120782, 120831), (122624, 122654), (123136, 123180),
   (123191, 123197), (123200, 123209), (123214, 123214), (123536, 123565), (123584, 123627), (123632, 123641), (124896, 124902), (124904, 124907),
   (124909, 124910), (124912, 124926), (124928, 125124), (125127, 125135), (125184, 125251), (125259, 125259), (125264, 125273), (126065, 126123),
   (126125, 126127), (126129, 126132), (126209, 126253), (126255, 126269), (126464, 126467), (126469, 126495), (126497, 126498), (126500, 126500),
   (126503, 126503), (126505, 126514), (126516, 126519), (126521, 126521), (126523, 126523), (126530, 126530), (126535, 126535), (126537, 126537),
   (126539, 126539), (126541, 126543), (126545, 126546), (126548, 126548), (126551, 126551), (126553, 126553), (126555, 126555), (126557, 126557),
   (126559, 126559), (126561, 126562), (126564, 126564), (126567, 126570), (126572, 126578), (126580, 126583), (126585, 126588), (126590, 126590),
   (126592, 126601), (126603, 126619), (126625, 126627), (126629, 126633), (126635, 126651), (127232, 127244), (130032, 130041), (131072, 173791),
   (173824, 177976), (177984, 178205), (178208, 183969), (183984, 191456), (194560, 195101), (196608, 201546)]

/-- Python `re`'s `\s` for `str` patterns: Unicode whitespace (includes
NBSP U+00A0, NEL U+0085, U+001C-U+001F and the Unicode space separators). -/
def pySpace (c : Char) : Bool := inRanges spaceRanges c.toNat

/-- Python `re`'s `\d` for `str` patterns: Unicode decimal digits (Nd). -/
def pyDigit (c : Char) : Bool := inRanges digitRanges c.toNat

/-- Python `re`'s `\w` for `str` patterns: Unicode alphanumerics (letters,
decimal digits, other digit and numeric characters) plus underscore. -/
def pyWord (c : Char) : Bool := inRanges wordRanges c.toNat

/-- `\b` on the left of a pattern whose first character is a word character:
holds iff there is no preceding character or it is not a word character. -/
def boundaryL : Option Char → Bool
  | none => true
  | some c => !pyWord c

/-- `\b` on the right of a pattern whose last character is a word character:
holds iff the remaining text is empty or starts with a non-word character. -/
def boundaryR (l : List Char) : Bool :=
  match l.head? with
  | none => true
  | some c => !pyWord c

/-- Value of one decimal-digit character: its offset inside its aligned
Unicode digit decade — the value `float()`/`int()` assign to Unicode
digits.  Returns 0 on non-digits (never reached by the matchers). -/
def digitVal (c : Char) : ℕ :=
  match digitRanges.find? (fun p => p.1 ≤ c.toNat && c.toNat ≤ p.2) with
  | some p => c.toNat - p.1
  | none => 0

/-- Value of a digit string read in base 10 (as `int`/`float` would read it). -/
def digitsVal (ds : List Char) : ℕ := ds.foldl (fun a c => 10 * a + digitVal c) 0

/-- The three capture-relevant parts of a match of `(-?\d+(?:\.\d+)?)\s*°\s*C`:
sign, integer digits, fractional digits (empty iff the optional `.\d+` part
is absent). -/
structure TempTok where
  neg : Bool
  intDigits : List Char
  fracDigits : List Char
  deriving DecidableEq, Repr

/-- `float(...)` applied to the matched group, as an exact rational. -/
def tokVal (t : TempTok) : ℚ :=
  let m : ℚ := (digitsVal t.intDigits : ℚ)
      + (digitsVal t.fracDigits : ℚ) / ((10 : ℚ) ^ t.fracDigits.length)
  if t.neg then -m else m

/-- Matcher for the trailing `\s*°\s*C` of the temperature pattern. -/
def degTail (l3 : List Char) : Bool :=
  ((l3.dropWhile pySpace).head? = some '°')
    && (((l3.dropWhile pySpace).tail.dropWhile pySpace).head? = some 'C')

/-- Matcher for `\d+(?:\.\d+)?\s*°\s*C` at the start of `l1`, with the sign
already consumed (`neg`).  Greedy runs are exact here, see the header note. -/
def parseTempNum (neg : Bool) (l1 : List Char) : Option TempTok :=
  if l1.takeWhile pyDigit = [] then none
  else if (l1.dropWhile pyDigit).head? = some '.'
      ∧ (l1.dropWhile pyDigit).tail.takeWhile pyDigit ≠ [] then
    if degTail ((l1.dropWhile pyDigit).tail.dropWhile pyDigit) then
      some ⟨neg, l1.takeWhile pyDigit, (l1.dropWhile pyDigit).tail.takeWhile pyDigit⟩
    else none
  else if degTail (l1.dropWhile pyDigit) then
    some ⟨neg, l1.takeWhile pyDigit, []⟩
  else none

/-- Matcher for `(-?\d+(?:\.\d+)?)\s*°\s*C` (scraper.py line 22) at the start
of `l`.  When `l` starts with `-` the signless alternative of `-?` cannot
succeed (a digit would be required where `-` stands), so trying the signed
form alone is exact. -/
def parseTempAt (l : List Char) : Option TempTok :=
  if l.head? = some '-' then parseTempNum true l.tail else parseTempNum false l

/-- Split exactly `n` leading digits off `l`. -/
def splitDigits : ℕ → List Char → Option (List Char × List Char)
  | 0, l => some ([], l)
  | _ + 1, [] => none
  | n + 1, c :: r =>
    if pyDigit c then
      match splitDigits n r with
      | some (ds, rest) => some (c :: ds, rest)
      | none => none
    else none

/-- Consume one expected literal character. -/
def expectChar (c : Char) (l : List Char) : Option (List Char) :=
  if l.head? = some c then some l.tail else none

/-- Matcher for `\b(\d{4}-\d{2}-\d{2}\s+\d{2}:\d{2}:\d{2})\b` (scraper.py
line 18) at the current position; `prev` is the character before the
position.  Returns the matched group verbatim. -/
def parseTsAt (prev : Option Char) (l : List Char) : Option (List Char) :=
  if boundaryL prev then
    (splitDigits 4 l).bind fun p1 =>
    (expectChar '-' p1.2).bind fun l1 =>
    (splitDigits 2 l1).bind fun p2 =>
    (expectChar '-' p2.2).bind fun l2 =>
    (splitDigits 2 l2).bind fun p3 =>
    let sp := p3.2.takeWhile pySpace
    let l3 := p3.2.dropWhile pySpace
    if sp = [] then none
    else
      (splitDigits 2 l3).bind fun p4 =>
      (expectChar ':' p4.2).bind fun l4 =>
      (splitDigits 2 l4).bind fun p5 =>
      (expectChar ':' p5.2).bind fun l5 =>
      (splitDigits 2 l5).bind fun p6 =>
      if boundaryR p6.2 then
        some (p1.1 ++ '-' :: (p2.1 ++ '-' :: (p3.1
          ++ (sp ++ (p4.1 ++ ':' :: (p5.1 ++ ':' :: p6.1))))))
      else none
  else none

/-- Simple Unicode lowercasing as CPython's `sre` applies it to characters
compared against ASCII letters: on ASCII it is the usual mapping, and the
only two non-ASCII characters whose Unicode simple lowercase is ASCII are
U+212A KELVIN SIGN (to `k`) and U+0130 LATIN CAPITAL LETTER I WITH DOT
ABOVE (to `i`).  Every other character lowercases to a non-ASCII character,
so mapping it to itself cannot change a comparison with an ASCII letter. -/
def pyLowerAscii (c : Char) : Char :=
  if 65 ≤ c.toNat ∧ c.toNat ≤ 90 then Char.ofNat (c.toNat + 32)
  else if c = '\u212A' then 'k'
  else if c = '\u0130' then 'i'
  else c

/-- One pattern literal under `re.IGNORECASE` (Unicode, ASCII-letter
pattern character `p`): a text character matches iff its lowercase equals
`p`'s lowercase, plus sre's extra equivalence classes i/ı (U+0131) and
s/ſ (U+017F). -/
def ciEq (p c : Char) : Bool :=
  pyLowerAscii c = pyLowerAscii p
  || (pyLowerAscii p = 'i' && c = '\u0131')
  || (pyLowerAscii p = 's' && c = '\u017F')

/-- Case-insensitive literal match (`re.IGNORECASE`): consume the pattern
`ps` from `l`. -/
def ciMatch : List Char → List Char → Option (List Char)
  | [], l => some l
  | _ :: _, [] => none
  | p :: ps, c :: cs => if ciEq p c then ciMatch ps cs else none

/-- Pointwise case-insensitive equality of a pattern and a text segment. -/
def ciAll : List Char → List Char → Bool
  | [], [] => true
  | p :: ps, c :: cs => ciEq p c && ciAll ps cs
  | _, _ => false

/-- Matcher for `\bEverything\s+ok\b` with `re.IGNORECASE` (scraper.py
line 28) at the current position. -/
def parseOkAt (prev : Option Char) (l : List Char) : Option Unit :=
  if boundaryL prev then
    (ciMatch "Everything".toList l).bind fun l1 =>
    let sp := l1.takeWhile pySpace
    let l2 := l1.dropWhile pySpace
    if sp = [] then none
    else
      (ciMatch "ok".toList l2).bind fun rest =>
      if boundaryR rest then some () else none
  else none

/-- `re.search`: try the matcher at each position from left to right and
return the first success.  `prev` is the character before the current
position (needed by `\b`). -/
def scanFrom {α : Type} (f : Option Char → List Char → Option α) :
    Option Char → List Char → Option α
  | prev, [] => f prev []
  | prev, c :: rest =>
    match f prev (c :: rest) with
    | some v => some v
    | none => scanFrom f (some c) rest

/-- The character preceding position `i` (as far as `\b` is concerned) when
scanning `l` with initial previous character `prev`. -/
def prevAt (prev : Option Char) (l : List Char) : ℕ → Option Char
  | 0 => prev
  | i + 1 => l[i]?

/-- `extract_latest` (scraper.py lines 12-32): three independent scans over
the page text, returning `(temperature_c, timestamp, status)`. -/
def extract_latest (page_text : List Char) :
    Option ℚ × Option (List Char) × Option String :=
  let timestamp := scanFrom parseTsAt none page_text
  let temperature_c := (scanFrom (fun _ l => parseTempAt l) none page_text).map tokVal
  let status :=
    if (scanFrom parseOkAt none page_text).isSome then some "Everything ok"
    else none
  (temperature_c, timestamp, status)

/-- A Python value appearing in the `params` dict of `post_to_base44`. -/
inductive PVal where
  | int (n : ℤ)
  | num (q : ℚ)
  | str (s : String)
  | null
  deriving DecidableEq, Repr

/-- The reading dict built by `fetch_one_tank` (scraper.py lines 56-62) /
consumed by `post_to_base44`.  Optional fields model Python `None`. -/
structure TankReading where
  tank_id : ℤ
  tank_code : Option String
  temperature_c : Option ℚ
  last_update : Option String
  status_text : Option String
  deriving DecidableEq, Repr

/-- A nullable rational as a Python value. -/
def optNum : Option ℚ → PVal
  | some q => PVal.num q
  | none => PVal.null

/-- Python truthiness of a nullable string (`None` and `""` are falsy). -/
def truthyStr : Option String → Bool
  | none => false
  | some s => s ≠ ""

/-- The `params` dict of `post_to_base44` (scraper.py lines 69-81), in
insertion order. -/
def build_params (webhook_key : String) (payload : TankReading) :
    List (String × PVal) :=
  [("tank_id", PVal.int payload.tank_id),
   ("temperature", optNum payload.temperature_c)]
  ++ (if webhook_key ≠ "" then [("key", PVal.str webhook_key)] else [])
  ++ (match payload.tank_code with
      | some s => if s ≠ "" then [("tank_code", PVal.str s)] else []
      | none => [])
  ++ (match payload.last_update with
      | some s => if s ≠ "" then [("last_update", PVal.str s)] else []
      | none => [])
  ++ (match payload.status_text with
      | some s => if s ≠ "" then [("status_text", PVal.str s)] else []
      | none => [])

/-- Result of one `requests.get` call: a response (any status code, e.g. also
non-2xx) or a raised exception (timeout, network error). -/
inductive NetResult where
  | resp (code : ℕ) (body : String)
  | exc
  deriving DecidableEq, Repr

/-- One line printed by the forwarding loop of `main`. -/
inductive OutLine where
  | skip (tank_id : ℤ)
  | update (tank_id : ℤ) (code : ℕ) (body : String)
  deriving DecidableEq, Repr

/-- Observable outcome of the forwarding loop: printed lines, the parameter
sets actually sent over the network (forward attempts, in order), and whether
the loop ran to completion (`false` = an uncaught exception aborted it). -/
structure PushResult where
  lines : List OutLine
  calls : List (List (String × PVal))
  completed : Bool
  deriving DecidableEq, Repr

/-- The forwarding loop of `main` (scraper.py lines 120-127): for each
reading, skip (with a report line) when `temperature_c is None`, otherwise
build the params and call the network.  There is no try/except: an exception
from `requests.get` aborts the loop (nothing more is printed or sent). -/
def push_updates (webhook_key : String)
    (net : List (String × PVal) → NetResult) :
    List TankReading → PushResult
  | [] => ⟨[], [], true⟩
  | r :: rest =>
    match r.temperature_c with
    | none =>
      let s := push_updates webhook_key net rest
      ⟨OutLine.skip r.tank_id :: s.lines, s.calls, s.completed⟩
    | some _ =>
      let ps := build_params webhook_key r
      match net ps with
      | NetResult.resp c b =>
        let s := push_updates webhook_key net rest
        ⟨OutLine.update r.tank_id c b :: s.lines, ps :: s.calls, s.completed⟩
      | NetResult.exc => ⟨[], [ps], false⟩

/-! ## Declarative (specification-side) readings of the three patterns

These restate the spec's wording ("optional leading `-`, one-or-more digits,
optional `.` and one-or-more digits, optional whitespace, `°`, optional
whitespace, `C`", etc.) as decompositions of the text, to be proved
equivalent to the operational matchers above. -/

/-- The timestamp pattern `\b(\d{4}-\d{2}-\d{2}\s+\d{2}:\d{2}:\d{2})\b`
matches at the current position (previous character `prev`, remaining text
`l`) with matched group `m`. -/
def TsAt (prev : Option Char) (l : List Char) (m : List Char) : Prop :=
  boundaryL prev = true ∧
  ∃ d1 d2 d3 sp t1 t2 t3 rest : List Char,
    l = d1 ++ '-' :: (d2 ++ '-' :: (d3 ++ (sp ++ (t1 ++ ':' :: (t2 ++ ':' :: (t3 ++ rest))))))
    ∧ m = d1 ++ '-' :: (d2 ++ '-' :: (d3 ++ (sp ++ (t1 ++ ':' :: (t2 ++ ':' :: t3)))))
    ∧ d1.length = 4 ∧ d2.length = 2 ∧ d3.length = 2
    ∧ t1.length = 2 ∧ t2.length = 2 ∧ t3.length = 2
    ∧ (∀ c ∈ d1, pyDigit c = true) ∧ (∀ c ∈ d2, pyDigit c = true)
    ∧ (∀ c ∈ d3, pyDigit c = true) ∧ (∀ c ∈ t1, pyDigit c = true)
    ∧ (∀ c ∈ t2, pyDigit c = true) ∧ (∀ c ∈ t3, pyDigit c = true)
    ∧ sp ≠ [] ∧ (∀ c ∈ sp, pySpace c = true)
    ∧ boundaryR rest = true

/-- The status pattern `\bEverything\s+ok\b` (case-insensitive) matches at
the current position. -/
def OkAt (prev : Option Char) (l : List Char) : Prop :=
  boundaryL prev = true ∧
  ∃ ev sp ok rest : List Char,
    l = ev ++ (sp ++ (ok ++ rest))
    ∧ ciAll "Everything".toList ev = true
    ∧ ciAll "ok".toList ok = true
    ∧ sp ≠ [] ∧ (∀ c ∈ sp, pySpace c = true)
    ∧ boundaryR rest = true

/-! ## Character-class and list helper lemmas -/

theorem inRanges_disjoint {rs ss : List (Nat × Nat)}
    (h : rangesDisjoint rs ss = true) {n : ℕ}
    (hn : inRanges rs n = true) : inRanges ss n = false := by
  cases hss : inRanges ss n with
  | false => rfl
  | true =>
    exfalso
    simp only [rangesDisjoint, List.all_eq_true, Bool.or_eq_true,
      decide_eq_true_eq] at h
    simp only [inRanges, List.any_eq_true, Bool.and_eq_true,
      decide_eq_true_eq] at hn hss
    obtain ⟨r, hr, hr1, hr2⟩ := hn
    obtain ⟨s, hs, hs1, hs2⟩ := hss
    rcases h r hr s hs with h1 | h1 <;> omega

theorem pyDigit_not_space {c : Char} (h : pyDigit c = true) : pySpace c = false :=
  inRanges_disjoint (by decide) h

/-- Characters with codepoints in the ASCII letter region are not spaces. -/
theorem pySpace_false_ascii {c : Char} (h1 : 65 ≤ c.toNat) (h2 : c.toNat ≤ 122) :
    pySpace c = false := by
  cases hs : pySpace c with
  | false => rfl
  | true =>
    exfalso
    simp only [pySpace, inRanges, spaceRanges, List.any_eq_true,
      Bool.and_eq_true, decide_eq_true_eq] at hs
    obtain ⟨p, hp, ha, hb⟩ := hs
    simp only [List.mem_cons, List.not_mem_nil, or_false] at hp
    rcases hp with rfl | rfl | rfl | rfl | rfl | rfl | rfl | rfl | rfl | rfl <;>
      simp at ha hb <;> omega

theorem takeWhile_dropWhile_append {p : Char → Bool} {xs ys : List Char}
    (h1 : ∀ x ∈ xs, p x = true) (h2 : ∀ c, ys.head? = some c → p c = false) :
    (xs ++ ys).takeWhile p = xs ∧ (xs ++ ys).dropWhile p = ys := by
  induction xs with
  | nil =>
    simp only [List.nil_append]
    cases ys with
    | nil => simp
    | cons c cs =>
      have hc := h2 c rfl
      simp [List.takeWhile_cons, List.dropWhile_cons, hc]
  | cons x xs ih =>
    have hx := h1 x (List.mem_cons_self x xs)
    have hr := ih (fun a ha => h1 a (List.mem_cons_of_mem _ ha))
    simp [List.takeWhile_cons, List.dropWhile_cons, hx, hr.1, hr.2]

theorem splitDigits_eq_some {n : ℕ} {l ds rest : List Char} :
    splitDigits n l = some (ds, rest) ↔
      l = ds ++ rest ∧ ds.length = n ∧ ∀ c ∈ ds, pyDigit c = true := by
  induction n generalizing l ds with
  | zero =>
    constructor
    · intro h
      simp only [splitDigits, Option.some.injEq, Prod.mk.injEq] at h
      obtain ⟨rfl, rfl⟩ := h
      exact ⟨rfl, rfl, by intro c hc; cases hc⟩
    · rintro ⟨rfl, hlen, -⟩
      rw [List.length_eq_zero] at hlen
      subst hlen
      rfl
  | succ n ih =>
    cases l with
    | nil =>
      constructor
      · intro h; cases h
      · rintro ⟨heq, hlen, -⟩
        cases ds with
        | nil => cases hlen
        | cons d ds => cases heq
    | cons c r =>
      constructor
      · intro h
        simp only [splitDigits] at h
        by_cases hc : pyDigit c = true
        · rw [if_pos hc] at h
          cases hsp : splitDigits n r with
          | none => rw [hsp] at h; cases h
          | some p =>
            obtain ⟨ds0, rest0⟩ := p
            rw [hsp] at h
            simp only [Option.some.injEq, Prod.mk.injEq] at h
            obtain ⟨h1, h2⟩ := h
            subst h1
            subst h2
            obtain ⟨hr, hlen, hdig⟩ := ih.mp hsp
            subst hr
            refine ⟨rfl, by simp [hlen], ?_⟩
            intro x hx
            rcases List.mem_cons.mp hx with rfl | hx2
            · exact hc
            · exact hdig x hx2
        · rw [if_neg hc] at h; cases h
      · rintro ⟨heq, hlen, hdig⟩
        cases ds with
        | nil => cases hlen
        | cons d ds0 =>
          simp only [List.cons_append, List.cons.injEq] at heq
          obtain ⟨rfl, hr⟩ := heq
          have hd := hdig c (List.mem_cons_self c ds0)
          have hrec : splitDigits n r = some (ds0, rest) :=
            ih.mpr ⟨hr, by simpa using hlen, fun x hx => hdig x (List.mem_cons_of_mem _ hx)⟩
          simp [splitDigits, hd, hrec]
  
theorem expectChar_eq_some {c : Char} {l rest : List Char} :
    expectChar c l = some rest ↔ l = c :: rest := by
  constructor
  · intro h
    unfold expectChar at h
    by_cases hh : l.head? = some c
    · rw [if_pos hh] at h
      simp only [Option.some.injEq] at h
      cases l with
      | nil => cases hh
      | cons a t =>
        simp only [List.head?_cons, Option.some.injEq] at hh
        subst hh
        simp only [List.tail_cons] at h
        rw [h]
    · rw [if_neg hh] at h; cases h
  · rintro rfl
    simp [expectChar]

theorem ciMatch_eq_some {ps : List Char} :
    ∀ {l rest : List Char},
      ciMatch ps l = some rest ↔
        ∃ m, l = m ++ rest ∧ ciAll ps m = true := by
  induction ps with
  | nil =>
    intro l rest
    constructor
    · intro h
      simp only [ciMatch, Option.some.injEq] at h
      exact ⟨[], by rw [h]; rfl, rfl⟩
    · rintro ⟨m, rfl, hm⟩
      cases m with
      | nil => rfl
      | cons a m0 => simp [ciAll] at hm
  | cons p ps ih =>
    intro l rest
    cases l with
    | nil =>
      constructor
      · intro h; cases h
      · rintro ⟨m, heq, hm⟩
        cases m with
        | nil => simp [ciAll] at hm
        | cons a m0 => cases heq
    | cons c cs =>
      constructor
      · intro h
        simp only [ciMatch] at h
        by_cases hc : ciEq p c = true
        · rw [if_pos hc] at h
          obtain ⟨m, rfl, hm⟩ := ih.mp h
          exact ⟨c :: m, rfl, by simp [ciAll, hm, hc]⟩
        · rw [if_neg hc] at h; cases h
      · rintro ⟨m, heq, hm⟩
        cases m with
        | nil => simp [ciAll] at hm
        | cons a m0 =>
          simp only [List.cons_append, List.cons.injEq] at heq
          obtain ⟨rfl, hr⟩ := heq
          simp only [ciAll, Bool.and_eq_true] at hm
          obtain ⟨hlow, hm0⟩ := hm
          simp only [ciMatch, if_pos hlow]
          exact ih.mpr ⟨m0, hr, hm0⟩

/-! ## `re.search` scanner lemmas -/

theorem prevAt_cons (prev : Option Char) (c : Char) (rest : List Char) (i : ℕ) :
    prevAt prev (c :: rest) (i + 1) = prevAt (some c) rest i := by
  cases i with
  | zero => simp [prevAt]
  | succ k => simp [prevAt]

theorem scanFrom_cons {α : Type} (f : Option Char → List Char → Option α)
    (prev : Option Char) (c : Char) (rest : List Char) :
    scanFrom f prev (c :: rest) =
      match f prev (c :: rest) with
      | some v => some v
      | none => scanFrom f (some c) rest := rfl

theorem scanFrom_some_iff {α : Type} {f : Option Char → List Char → Option α}
    (hnil : ∀ p, f p [] = none) :
    ∀ (prev : Option Char) (l : List Char) (v : α),
      scanFrom f prev l = some v ↔
        ∃ i, f (prevAt prev l i) (l.drop i) = some v ∧
          ∀ j, j < i → f (prevAt prev l j) (l.drop j) = none := by
  intro prev l
  induction l generalizing prev with
  | nil =>
    intro v
    constructor
    · intro h
      rw [show scanFrom f prev [] = f prev [] from rfl, hnil] at h
      cases h
    · rintro ⟨i, hi, -⟩
      rw [List.drop_nil, hnil] at hi
      cases hi
  | cons c rest ih =>
    intro v
    constructor
    · intro h
      rw [scanFrom_cons] at h
      cases hf : f prev (c :: rest) with
      | some w =>
        rw [hf] at h
        simp only [Option.some.injEq] at h
        subst h
        exact ⟨0, hf, fun j hj => absurd hj (Nat.not_lt_zero j)⟩
      | none =>
        rw [hf] at h
        obtain ⟨i, hi, hmin⟩ := (ih (some c) v).mp h
        refine ⟨i + 1, ?_, ?_⟩
        · rw [prevAt_cons, List.drop_succ_cons]
          exact hi
        · intro j hj
          cases j with
          | zero => exact hf
          | succ k =>
            rw [prevAt_cons, List.drop_succ_cons]
            exact hmin k (Nat.succ_lt_succ_iff.mp hj)
    · rintro ⟨i, hi, hmin⟩
      rw [scanFrom_cons]
      cases i with
      | zero =>
        rw [show prevAt prev (c :: rest) 0 = prev from rfl, List.drop_zero] at hi
        rw [hi]
      | succ k =>
        have h0 := hmin 0 (Nat.succ_pos k)
        rw [show prevAt prev (c :: rest) 0 = prev from rfl, List.drop_zero] at h0
        rw [h0]
        apply (ih (some c) v).mpr
        refine ⟨k, ?_, ?_⟩
        · rw [← prevAt_cons prev c rest k, ← List.drop_succ_cons (n := k) (a := c) (l := rest)]
          exact hi
        · intro j hj
          have := hmin (j + 1) (Nat.succ_lt_succ hj)
          rw [prevAt_cons, List.drop_succ_cons] at this
          exact this

theorem scanFrom_none_iff {α : Type} {f : Option Char → List Char → Option α}
    (hnil : ∀ p, f p [] = none) :
    ∀ (prev : Option Char) (l : List Char),
      scanFrom f prev l = none ↔
        ∀ i, f (prevAt prev l i) (l.drop i) = none := by
  intro prev l
  induction l generalizing prev with
  | nil =>
    constructor
    · intro h i
      rw [List.drop_nil, hnil]
    · intro h
      rw [show scanFrom f prev [] = f prev [] from rfl, hnil]
  | cons c rest ih =>
    constructor
    · intro h i
      rw [scanFrom_cons] at h
      cases hf : f prev (c :: rest) with
      | some w => rw [hf] at h; cases h
      | none =>
        rw [hf] at h
        cases i with
        | zero => exact hf
        | succ k =>
          rw [prevAt_cons, List.drop_succ_cons]
          exact ((ih (some c)).mp h) k
    · intro h
      rw [scanFrom_cons]
      have h0 := h 0
      rw [show prevAt prev (c :: rest) 0 = prev from rfl, List.drop_zero] at h0
      rw [h0]
      apply (ih (some c)).mpr
      intro k
      have := h (k + 1)
      rw [prevAt_cons, List.drop_succ_cons] at this
      exact this

/-! ## Temperature pattern: operational matcher ↔ declarative decomposition -/

theorem head_digits_append {ds r : List Char} (hne : ds ≠ [])
    (hd : ∀ c ∈ ds, pyDigit c = true) :
    ∀ c, (ds ++ r).head? = some c → pySpace c = false := by
  cases ds with
  | nil => exact absurd rfl hne
  | cons a tl =>
    intro c h
    simp only [List.cons_append, List.head?_cons, Option.some.injEq] at h
    subst h
    exact pyDigit_not_space (hd a (List.mem_cons_self a tl))

theorem parseTsAt_eq_some {prev : Option Char} {l m : List Char} :
    parseTsAt prev l = some m ↔ TsAt prev l m := by
  unfold parseTsAt TsAt
  by_cases hb : boundaryL prev = true
  · rw [if_pos hb]
    constructor
    · intro h
      rw [Option.bind_eq_some] at h
      obtain ⟨⟨d1, r1⟩, hs1, h⟩ := h
      dsimp only at h
      rw [Option.bind_eq_some] at h
      obtain ⟨l1, he1, h⟩ := h
      rw [Option.bind_eq_some] at h
      obtain ⟨⟨d2, r2⟩, hs2, h⟩ := h
      dsimp only at h
      rw [Option.bind_eq_some] at h
      obtain ⟨l2, he2, h⟩ := h
      rw [Option.bind_eq_some] at h
      obtain ⟨⟨d3, r3⟩, hs3, h⟩ := h
      dsimp only at h
      by_cases hsp : r3.takeWhile pySpace = []
      · rw [if_pos hsp] at h
        cases h
      · rw [if_neg hsp] at h
        rw [Option.bind_eq_some] at h
        obtain ⟨⟨t1, r4⟩, hs4, h⟩ := h
        dsimp only at h
        rw [Option.bind_eq_some] at h
        obtain ⟨l4, he4, h⟩ := h
        rw [Option.bind_eq_some] at h
        obtain ⟨⟨t2, r5⟩, hs5, h⟩ := h
        dsimp only at h
        rw [Option.bind_eq_some] at h
        obtain ⟨l5, he5, h⟩ := h
        rw [Option.bind_eq_some] at h
        obtain ⟨⟨t3, r6⟩, hs6, h⟩ := h
        dsimp only at h
        by_cases hbr : boundaryR r6 = true
        · rw [if_pos hbr] at h
          simp only [Option.some.injEq] at h
          subst h
          obtain ⟨hl, hlen1, hdig1⟩ := splitDigits_eq_some.mp hs1
          obtain ⟨hl1, hlen2, hdig2⟩ := splitDigits_eq_some.mp hs2
          obtain ⟨hl2, hlen3, hdig3⟩ := splitDigits_eq_some.mp hs3
          obtain ⟨hl3, hlen4, hdig4⟩ := splitDigits_eq_some.mp hs4
          obtain ⟨hl4, hlen5, hdig5⟩ := splitDigits_eq_some.mp hs5
          obtain ⟨hl5, hlen6, hdig6⟩ := splitDigits_eq_some.mp hs6
          have hr1 := expectChar_eq_some.mp he1
          have hr2 := expectChar_eq_some.mp he2
          have hr4 := expectChar_eq_some.mp he4
          have hr5 := expectChar_eq_some.mp he5
          subst hl hr1 hl1 hr2 hl2 hr4 hl4 hr5
          have hr3full : r3
              = r3.takeWhile pySpace
                ++ (t1 ++ ':' :: (t2 ++ ':' :: (t3 ++ r6))) := by
            conv_lhs => rw [← List.takeWhile_append_dropWhile (p := pySpace) (l := r3)]
            rw [hl3, hl5]
          refine ⟨hb, d1, d2, d3, r3.takeWhile pySpace, t1, t2, t3, r6,
            ?_, rfl, hlen1, hlen2, hlen3, hlen4, hlen5, hlen6,
            hdig1, hdig2, hdig3, hdig4, hdig5, hdig6,
            hsp, (fun c hc => List.mem_takeWhile_imp hc), hbr⟩
          conv_lhs => rw [hr3full]
        · rw [if_neg hbr] at h
          cases h
    · rintro ⟨-, d1, d2, d3, sp, t1, t2, t3, rest, hl, hm,
        hlen1, hlen2, hlen3, hlen4, hlen5, hlen6,
        hdig1, hdig2, hdig3, hdig4, hdig5, hdig6, hspne, hsps, hbr⟩
      subst hl hm
      have ht1ne : t1 ≠ [] := by
        intro hx
        rw [hx] at hlen4
        cases hlen4
      have hA1 : splitDigits 4
          (d1 ++ '-' :: (d2 ++ '-' :: (d3 ++ (sp ++ (t1 ++ ':' :: (t2 ++ ':' :: (t3 ++ rest)))))))
          = some (d1, '-' :: (d2 ++ '-' :: (d3 ++ (sp ++ (t1 ++ ':' :: (t2 ++ ':' :: (t3 ++ rest))))))) :=
        splitDigits_eq_some.mpr ⟨rfl, hlen1, hdig1⟩
      have hA3 : splitDigits 2
          (d2 ++ '-' :: (d3 ++ (sp ++ (t1 ++ ':' :: (t2 ++ ':' :: (t3 ++ rest))))))
          = some (d2, '-' :: (d3 ++ (sp ++ (t1 ++ ':' :: (t2 ++ ':' :: (t3 ++ rest)))))) :=
        splitDigits_eq_some.mpr ⟨rfl, hlen2, hdig2⟩
      have hA5 : splitDigits 2
          (d3 ++ (sp ++ (t1 ++ ':' :: (t2 ++ ':' :: (t3 ++ rest)))))
          = some (d3, sp ++ (t1 ++ ':' :: (t2 ++ ':' :: (t3 ++ rest)))) :=
        splitDigits_eq_some.mpr ⟨rfl, hlen3, hdig3⟩
      have hsp12 : (sp ++ (t1 ++ ':' :: (t2 ++ ':' :: (t3 ++ rest)))).takeWhile pySpace = sp
          ∧ (sp ++ (t1 ++ ':' :: (t2 ++ ':' :: (t3 ++ rest)))).dropWhile pySpace
            = t1 ++ ':' :: (t2 ++ ':' :: (t3 ++ rest)) :=
        takeWhile_dropWhile_append hsps (head_digits_append ht1ne hdig4)
      have hA7 : splitDigits 2 (t1 ++ ':' :: (t2 ++ ':' :: (t3 ++ rest)))
          = some (t1, ':' :: (t2 ++ ':' :: (t3 ++ rest))) :=
        splitDigits_eq_some.mpr ⟨rfl, hlen4, hdig4⟩
      have hA8 : splitDigits 2 (t2 ++ ':' :: (t3 ++ rest))
          = some (t2, ':' :: (t3 ++ rest)) :=
        splitDigits_eq_some.mpr ⟨rfl, hlen5, hdig5⟩
      have hA9 : splitDigits 2 (t3 ++ rest) = some (t3, rest) :=
        splitDigits_eq_some.mpr ⟨rfl, hlen6, hdig6⟩
      have hE : ∀ (c : Char) (r : List Char), expectChar c (c :: r) = some r :=
        fun c r => expectChar_eq_some.mpr rfl
      simp only [hA1, Option.some_bind, hE, hA3, hA5, hsp12.1, hsp12.2,
        hspne, hA7, hA8, hA9, hbr, if_false, if_true]
  · rw [if_neg hb]
    constructor
    · intro h
      cases h
    · rintro ⟨hb2, -⟩
      exact absurd hb2 hb

/-! ## Status pattern: operational matcher ↔ declarative decomposition -/

/-- A character matching an ASCII lowercase letter under `re.IGNORECASE`
is not whitespace (used for the greedy `\\s+` run before `ok`). -/
theorem ciEq_not_space {p c : Char}
    (h1 : 97 ≤ (pyLowerAscii p).toNat) (h2 : (pyLowerAscii p).toNat ≤ 122)
    (h : ciEq p c = true) : pySpace c = false := by
  simp only [ciEq, Bool.or_eq_true, Bool.and_eq_true, decide_eq_true_eq] at h
  rcases h with (hlow | ⟨-, rfl⟩) | ⟨-, rfl⟩
  · by_cases hA : 65 ≤ c.toNat ∧ c.toNat ≤ 90
    · exact pySpace_false_ascii hA.1 (by omega)
    · by_cases hK : c = '\u212A'
      · subst hK
        decide
      · by_cases hI : c = '\u0130'
        · subst hI
          decide
        · have hcc : pyLowerAscii c = c := by
            unfold pyLowerAscii
            rw [if_neg hA, if_neg hK, if_neg hI]
          rw [hcc] at hlow
          rw [hlow]
          exact pySpace_false_ascii (by omega) h2
  · decide
  · decide

/-- Lean's ASCII `Char.toLower` sending a character to an ASCII lowercase
letter implies a `re.IGNORECASE` match with that letter. -/
theorem ciEq_of_toLower {p c : Char}
    (h1 : 97 ≤ (pyLowerAscii p).toNat) (h2 : (pyLowerAscii p).toNat ≤ 122)
    (h : c.toLower = pyLowerAscii p) : ciEq p c = true := by
  have hlow : pyLowerAscii c = pyLowerAscii p := by
    simp only [Char.toLower, ge_iff_le] at h
    by_cases hA : 65 ≤ c.toNat ∧ c.toNat ≤ 90
    · rw [if_pos hA] at h
      unfold pyLowerAscii
      rw [if_pos hA]
      exact h
    · rw [if_neg hA] at h
      rw [h]
      generalize pyLowerAscii p = q at h1 h2 ⊢
      have hK : q ≠ '\u212A' := by
        intro he
        rw [he] at h2
        exact absurd h2 (by decide)
      have hI : q ≠ '\u0130' := by
        intro he
        rw [he] at h2
        exact absurd h2 (by decide)
      have hA2 : ¬(65 ≤ q.toNat ∧ q.toNat ≤ 90) := by
        intro hx
        omega
      unfold pyLowerAscii
      rw [if_neg hA2, if_neg hK, if_neg hI]
  simp [ciEq, hlow]

/-- Any ASCII casing of a lowercase-letter word matches it under
`re.IGNORECASE`. -/
theorem ciAll_of_toLower :
    ∀ ps m : List Char,
      (∀ p ∈ ps, 97 ≤ (pyLowerAscii p).toNat ∧ (pyLowerAscii p).toNat ≤ 122) →
      m.map Char.toLower = ps.map pyLowerAscii →
      ciAll ps m = true
  | [], [], _, _ => rfl
  | [], _ :: _, _, h => by simp at h
  | _ :: _, [], _, h => by simp at h
  | p :: ps, c :: m, hb, h => by
    simp only [List.map_cons, List.cons.injEq] at h
    obtain ⟨h1, h2⟩ := h
    have hp := hb p (List.mem_cons_self p ps)
    simp only [ciAll, Bool.and_eq_true]
    exact ⟨ciEq_of_toLower hp.1 hp.2 h1,
      ciAll_of_toLower ps m (fun q hq => hb q (List.mem_cons_of_mem _ hq)) h2⟩

theorem parseOkAt_eq_some {prev : Option Char} {l : List Char} :
    parseOkAt prev l = some () ↔ OkAt prev l := by
  unfold parseOkAt OkAt
  by_cases hb : boundaryL prev = true
  · rw [if_pos hb]
    constructor
    · intro h
      rw [Option.bind_eq_some] at h
      obtain ⟨l1, hev, h⟩ := h
      dsimp only at h
      by_cases hsp : l1.takeWhile pySpace = []
      · rw [if_pos hsp] at h
        cases h
      · rw [if_neg hsp] at h
        rw [Option.bind_eq_some] at h
        obtain ⟨rest, hok, h⟩ := h
        by_cases hbr : boundaryR rest = true
        · obtain ⟨ev, hlev, hevm⟩ := ciMatch_eq_some.mp hev
          obtain ⟨ok, hlok, hokm⟩ := ciMatch_eq_some.mp hok
          subst hlev
          have hl1eq : l1 = l1.takeWhile pySpace ++ (ok ++ rest) := by
            conv_lhs => rw [← List.takeWhile_append_dropWhile (p := pySpace) (l := l1)]
            rw [hlok]
          refine ⟨hb, ev, l1.takeWhile pySpace, ok, rest, ?_, hevm, hokm, hsp,
            (fun c hc => List.mem_takeWhile_imp hc), hbr⟩
          conv_lhs => rw [hl1eq]
        · rw [if_neg hbr] at h
          cases h
    · rintro ⟨-, ev, sp, ok, rest, hl, hevm, hokm, hspne, hsps, hbr⟩
      subst hl
      have hok_head : ∀ c, (ok ++ rest).head? = some c → pySpace c = false := by
        cases ok with
        | nil => exact absurd hokm (by decide)
        | cons a tl =>
          intro c hc
          simp only [List.cons_append, List.head?_cons, Option.some.injEq] at hc
          subst hc
          have hok2 : ciAll ('o' :: 'k' :: []) (a :: tl) = true := hokm
          simp only [ciAll, Bool.and_eq_true] at hok2
          exact ciEq_not_space (by decide) (by decide) hok2.1
      have hciE : ciMatch "Everything".toList (ev ++ (sp ++ (ok ++ rest)))
          = some (sp ++ (ok ++ rest)) :=
        ciMatch_eq_some.mpr ⟨ev, rfl, hevm⟩
      have hsp12 : (sp ++ (ok ++ rest)).takeWhile pySpace = sp
          ∧ (sp ++ (ok ++ rest)).dropWhile pySpace = ok ++ rest :=
        takeWhile_dropWhile_append hsps hok_head
      have hciO : ciMatch "ok".toList (ok ++ rest) = some rest :=
        ciMatch_eq_some.mpr ⟨ok, rfl, hokm⟩
      simp only [hciE, Option.some_bind, hsp12.1, hsp12.2, hspne, hciO, hbr,
        if_false, if_true]
  · rw [if_neg hb]
    constructor
    · intro h
      cases h
    · rintro ⟨hb2, -⟩
      exact absurd hb2 hb

/-! ## Matcher failure characterizations and scan-level wrappers -/

theorem parseTsAt_eq_none {prev : Option Char} {l : List Char} :
    parseTsAt prev l = none ↔ ∀ m, ¬ TsAt prev l m := by
  constructor
  · intro h m hm
    rw [← parseTsAt_eq_some] at hm
    rw [h] at hm
    cases hm
  · intro h
    cases hp : parseTsAt prev l with
    | none => rfl
    | some m => exact absurd (parseTsAt_eq_some.mp hp) (h m)

theorem parseOkAt_eq_none {prev : Option Char} {l : List Char} :
    parseOkAt prev l = none ↔ ¬ OkAt prev l := by
  constructor
  · intro h hm
    rw [← parseOkAt_eq_some] at hm
    rw [h] at hm
    cases hm
  · intro h
    cases hp : parseOkAt prev l with
    | none => rfl
    | some u =>
      cases u
      exact absurd (parseOkAt_eq_some.mp hp) h

theorem parseTsAt_nil (p : Option Char) : parseTsAt p [] = none := by
  unfold parseTsAt
  by_cases hb : boundaryL p = true
  · rw [if_pos hb]
    rfl
  · rw [if_neg hb]

theorem parseOkAt_nil (p : Option Char) : parseOkAt p [] = none := by
  unfold parseOkAt
  by_cases hb : boundaryL p = true
  · rw [if_pos hb]
    rfl
  · rw [if_neg hb]

theorem ts_scan_some_iff {text m : List Char} :
    scanFrom parseTsAt none text = some m ↔
      ∃ i, TsAt (prevAt none text i) (text.drop i) m ∧
        ∀ j, j < i → ∀ m2, ¬ TsAt (prevAt none text j) (text.drop j) m2 := by
  rw [scanFrom_some_iff parseTsAt_nil none text m]
  constructor
  · rintro ⟨i, hi, hmin⟩
    exact ⟨i, parseTsAt_eq_some.mp hi,
      fun j hj m2 => (parseTsAt_eq_none.mp (hmin j hj)) m2⟩
  · rintro ⟨i, hi, hmin⟩
    exact ⟨i, parseTsAt_eq_some.mpr hi,
      fun j hj => parseTsAt_eq_none.mpr (hmin j hj)⟩

theorem ts_scan_none_iff {text : List Char} :
    scanFrom parseTsAt none text = none ↔
      ∀ i m, ¬ TsAt (prevAt none text i) (text.drop i) m := by
  rw [scanFrom_none_iff parseTsAt_nil none text]
  constructor
  · intro h i
    exact parseTsAt_eq_none.mp (h i)
  · intro h i
    exact parseTsAt_eq_none.mpr (h i)

theorem ok_scan_isSome_iff {text : List Char} :
    (scanFrom parseOkAt none text).isSome = true ↔
      ∃ i, OkAt (prevAt none text i) (text.drop i) := by
  constructor
  · intro h
    rw [Option.isSome_iff_exists] at h
    obtain ⟨u, hu⟩ := h
    obtain ⟨i, hi, -⟩ := (scanFrom_some_iff parseOkAt_nil none text u).mp hu
    cases u
    exact ⟨i, parseOkAt_eq_some.mp hi⟩
  · rintro ⟨i, hi⟩
    cases hs : scanFrom parseOkAt none text with
    | some u => rfl
    | none =>
      have := (scanFrom_none_iff parseOkAt_nil none text).mp hs i
      rw [parseOkAt_eq_none] at this
      exact absurd hi this

theorem ok_scan_none_iff {text : List Char} :
    scanFrom parseOkAt none text = none ↔
      ∀ i, ¬ OkAt (prevAt none text i) (text.drop i) := by
  rw [scanFrom_none_iff parseOkAt_nil none text]
  constructor
  · intro h i
    exact parseOkAt_eq_none.mp (h i)
  · intro h i
    exact parseOkAt_eq_none.mpr (h i)

/-! ## Small facts used by the claim witnesses -/

theorem not_tsAt_nil (p : Option Char) (m : List Char) : ¬ TsAt p [] m := by
  rintro ⟨-, d1, d2, d3, sp, t1, t2, t3, rest, hl, -⟩
  simp at hl

theorem not_okAt_nil (p : Option Char) : ¬ OkAt p [] := by
  rintro ⟨-, ev, sp, ok, rest, hl, hevm, -⟩
  obtain ⟨rfl, -⟩ := List.append_eq_nil.mp hl.symm
  exact absurd hevm (by decide)

theorem extract_latest_ts (text : List Char) :
    (extract_latest text).2.1 = scanFrom parseTsAt none text := rfl

theorem extract_latest_status (text : List Char) :
    (extract_latest text).2.2
      = (if (scanFrom parseOkAt none text).isSome then some "Everything ok"
        else none) := rfl

/-! ## Claim theorems -/

/-- C5: for every page text, the extractor returns as `last_update` the
first word-boundary-delimited substring matching `4 digits, -, 2 digits, -,
2 digits, one-or-more whitespace, 2 digits, :, 2 digits, :, 2 digits`,
preserved verbatim without reparsing; if no such substring exists,
`last_update` is `None`. -/
theorem claim_C5_timestamp_extraction (text : List Char) :
    ((∀ i m, ¬ TsAt (prevAt none text i) (text.drop i) m) →
      (extract_latest text).2.1 = none)
    ∧ (∀ i m, TsAt (prevAt none text i) (text.drop i) m →
        (∀ j m2, TsAt (prevAt none text j) (text.drop j) m2 → i ≤ j) →
        (extract_latest text).2.1 = some m) := by
  constructor
  · intro h
    rw [extract_latest_ts]
    exact ts_scan_none_iff.mpr h
  · intro i m hi hmin
    rw [extract_latest_ts]
    exact ts_scan_some_iff.mpr
      ⟨i, hi, fun j hj m2 hm2 => absurd (hmin j m2 hm2) (Nat.not_le_of_lt hj)⟩

theorem claim_C5_timestamp_extraction_witness :
    (extract_latest []).2.1 = none
    ∧ (extract_latest "2026-01-01 12:22:09".toList).2.1
        = some "2026-01-01 12:22:09".toList := by
  refine ⟨(claim_C5_timestamp_extraction []).1
      (fun i m hm => not_tsAt_nil _ _ (by rwa [List.drop_nil] at hm)),
    (claim_C5_timestamp_extraction _).2 0 _
      ⟨rfl, ['2', '0', '2', '6'], ['0', '1'], ['0', '1'], [' '],
        ['1', '2'], ['2', '2'], ['0', '9'], [], by decide⟩
      (fun j m2 _ => Nat.zero_le j)⟩

set_option maxRecDepth 16384 in
/-- C6: for every page text containing, case-insensitively, the
word-boundary-delimited phrase `Everything` + whitespace + `ok`, the
extractor sets `status_text` to the canonical string `"Everything ok"`
regardless of the matched casing; for every page text without such a phrase
(including text containing `"Everything okay"`), `status_text` is `None`. -/
theorem claim_C6_status_extraction (text : List Char) :
    ((∀ i, ¬ OkAt (prevAt none text i) (text.drop i)) →
      (extract_latest text).2.2 = none)
    ∧ ((∃ i, OkAt (prevAt none text i) (text.drop i)) →
        (extract_latest text).2.2 = some "Everything ok")
    ∧ (extract_latest "Everything okay".toList).2.2 = none := by
  refine ⟨?_, ?_, by decide⟩
  · intro h
    rw [extract_latest_status, ok_scan_none_iff.mpr h]
    rfl
  · rintro ⟨i, hi⟩
    rw [extract_latest_status, ok_scan_isSome_iff.mpr ⟨i, hi⟩]
    rfl

theorem claim_C6_status_extraction_witness :
    (extract_latest []).2.2 = none
    ∧ (extract_latest "everything    OK".toList).2.2 = some "Everything ok" := by
  refine ⟨(claim_C6_status_extraction []).1
      (fun i h => not_okAt_nil _ (by rwa [List.drop_nil] at h)),
    (claim_C6_status_extraction _).2.1 ⟨0, rfl, "everything".toList,
      [' ', ' ', ' ', ' '], "OK".toList, [], by decide⟩⟩

/-- C7: the extractor is a pure, total, deterministic function of the page
text: it never raises (it is a total Lean function; absence of a match
yields `none` for that field), and applying it twice to the same page text
yields identical triples. -/
theorem claim_C7_extractor_pure (text : List Char) :
    extract_latest text = extract_latest text
    ∧ ∃ temp ts st, extract_latest text = (temp, ts, st) :=
  ⟨rfl, (extract_latest text).1, (extract_latest text).2.1,
    (extract_latest text).2.2, rfl⟩

theorem claim_C7_extractor_pure_witness :
    extract_latest "x".toList = extract_latest "x".toList
    ∧ ∃ temp ts st, extract_latest "x".toList = (temp, ts, st) :=
  claim_C7_extractor_pure "x".toList

/-! ## C8: an overflowing numeral (`float()` returns `inf` on it) -/

/-- C10: temperature matching is case-sensitive while status matching is
case-insensitive: a page text whose only degree marking is a lowercase `c`
(e.g. `"7.0°c"`) yields `temperature_c = None`, whereas any casing of
`everything ok` (with single-space whitespace) still sets `status_text`. -/
theorem claim_C10_case_sensitivity :
    (extract_latest "7.0°c".toList).1 = none
    ∧ ∀ e o : List Char, e.map Char.toLower = "everything".toList →
        o.map Char.toLower = "ok".toList →
        (extract_latest (e ++ ' ' :: o)).2.2 = some "Everything ok" := by
  constructor
  · decide
  · intro e o he ho
    have hev : ciAll "Everything".toList e = true :=
      ciAll_of_toLower "Everything".toList e (by decide) (by rw [he]; decide)
    have hok : ciAll "ok".toList o = true :=
      ciAll_of_toLower "ok".toList o (by decide) (by rw [ho]; decide)
    rw [extract_latest_status, ok_scan_isSome_iff.mpr
      ⟨0, rfl, e, [' '], o, [], by simp, hev, hok, by decide, by decide, rfl⟩]
    rfl

theorem claim_C10_case_sensitivity_witness :
    (extract_latest ("EVERYTHING".toList ++ ' ' :: "OK".toList)).2.2
      = some "Everything ok" :=
  claim_C10_case_sensitivity.2 "EVERYTHING".toList "OK".toList
    (by decide) (by decide)

/-- C2: for every reading and webhook key, the built payload mapping starts
with `tank_id` (the reading's `tank_id`) and `temperature` (the reading's
`temperature_c` — note the key name, not `temperature_c`), and contains
`key`, `tank_code`, `last_update`, `status_text` exactly when the
corresponding source value is non-empty/non-null; the payload for
`tank_id=5, temperature_c=7.0`, all other fields null, no webhook key, is
exactly `[tank_id ↦ 5, temperature ↦ 7.0]`. -/
theorem claim_C2_payload_builder (wk : String) (r : TankReading) :
    (build_params wk r)[0]? = some ("tank_id", PVal.int r.tank_id)
    ∧ (build_params wk r)[1]? = some ("temperature", optNum r.temperature_c)
    ∧ (∀ v, ("temperature_c", v) ∉ build_params wk r)
    ∧ ((∃ v, ("key", v) ∈ build_params wk r) ↔ wk ≠ "")
    ∧ ((∃ v, ("tank_code", v) ∈ build_params wk r) ↔ truthyStr r.tank_code = true)
    ∧ ((∃ v, ("last_update", v) ∈ build_params wk r) ↔ truthyStr r.last_update = true)
    ∧ ((∃ v, ("status_text", v) ∈ build_params wk r) ↔ truthyStr r.status_text = true)
    ∧ build_params "" ⟨5, none, some 7, none, none⟩
        = [("tank_id", PVal.int 5), ("temperature", PVal.num 7)] := by
  obtain ⟨tid, tc, tq, tl, ts⟩ := r
  refine ⟨by simp [build_params], by simp [build_params], ?_, ?_, ?_, ?_, ?_, by decide⟩ <;>
    rcases tc with _ | s1 <;> rcases tl with _ | s2 <;> rcases ts with _ | s3 <;>
      simp [build_params, truthyStr]

theorem claim_C2_payload_builder_witness :
    build_params "" ⟨5, none, some 7, none, none⟩
      = [("tank_id", PVal.int 5), ("temperature", PVal.num 7)] :=
  (claim_C2_payload_builder "" ⟨5, none, some 7, none, none⟩).2.2.2.2.2.2.2

/-- C3: a reading whose `temperature_c` is null is never forwarded — for
every webhook key, network oracle and remaining list, the loop emits the
skip line for that tank, adds no network call for it (the builder's output
never reaches the network), and continues with the remaining tanks exactly
as if the skipped tank were absent. -/
theorem claim_C3_skip_policy (wk : String)
    (net : List (String × PVal) → NetResult)
    (r : TankReading) (rest : List TankReading)
    (h : r.temperature_c = none) :
    push_updates wk net (r :: rest)
      = ⟨OutLine.skip r.tank_id :: (push_updates wk net rest).lines,
         (push_updates wk net rest).calls,
         (push_updates wk net rest).completed⟩ := by
  simp only [push_updates, h]

theorem claim_C3_skip_policy_witness :
    push_updates "" (fun _ => NetResult.resp 200 "ok")
        [⟨1, none, none, none, none⟩, ⟨2, none, some 7, none, none⟩]
      = ⟨OutLine.skip 1 :: (push_updates "" (fun _ => NetResult.resp 200 "ok")
            [⟨2, none, some 7, none, none⟩]).lines,
         (push_updates "" (fun _ => NetResult.resp 200 "ok")
            [⟨2, none, some 7, none, none⟩]).calls,
         (push_updates "" (fun _ => NetResult.resp 200 "ok")
            [⟨2, none, some 7, none, none⟩]).completed⟩ :=
  claim_C3_skip_policy "" (fun _ => NetResult.resp 200 "ok")
    ⟨1, none, none, none, none⟩ [⟨2, none, some 7, none, none⟩] rfl

/-- C4 (as stated, refuted by `claim_C4_counterexample`): with a network
oracle that raises on every call (timeout/network error) and two readings
with temperatures, the run aborts: no output line is produced for the
failing tank and the second tank is never processed (only one call is
attempted). -/
theorem claim_C4_counterexample :
    (push_updates "" (fun _ => NetResult.exc)
      [⟨1, none, some 7, none, none⟩, ⟨2, none, some 8, none, none⟩]).completed = false
    ∧ (push_updates "" (fun _ => NetResult.exc)
      [⟨1, none, some 7, none, none⟩, ⟨2, none, some 8, none, none⟩]).lines = []
    ∧ (push_updates "" (fun _ => NetResult.exc)
      [⟨1, none, some 7, none, none⟩, ⟨2, none, some 8, none, none⟩]).calls.length
        = 1 := by
  refine ⟨by decide, by decide, by decide⟩

/-- C4 (amended): a forwarding call that returns a response — any status
code, 2xx or not — is reported for its tank and never aborts the run or
affects other tanks (every tank yields exactly one output line); but a
raised exception (timeout, network error) is not caught: it aborts the run,
the failing tank gets no output line, and the remaining tanks are not
processed. -/
theorem claim_C4_forwarding_failures (wk : String)
    (net : List (String × PVal) → NetResult) (rs : List TankReading) :
    ((∀ p, net p ≠ NetResult.exc) →
      (push_updates wk net rs).completed = true
      ∧ (push_updates wk net rs).lines.length = rs.length)
    ∧ (∀ r rest q, r.temperature_c = some q →
        net (build_params wk r) = NetResult.exc →
        push_updates wk net (r :: rest)
          = ⟨[], [build_params wk r], false⟩) := by
  constructor
  · intro hnet
    induction rs with
    | nil => exact ⟨rfl, rfl⟩
    | cons r rest ih =>
      simp only [push_updates]
      cases hq : r.temperature_c with
      | none => simpa using ih
      | some q =>
        cases hn : net (build_params wk r) with
        | resp c b => simpa using ih
        | exc => exact absurd hn (hnet _)
  · intro r rest q hq hexc
    simp only [push_updates, hq, hexc]

theorem claim_C4_forwarding_failures_witness :
    ((push_updates "" (fun _ => NetResult.resp 500 "err")
        [⟨1, none, some 7, none, none⟩]).completed = true
      ∧ (push_updates "" (fun _ => NetResult.resp 500 "err")
        [⟨1, none, some 7, none, none⟩]).lines.length = 1)
    ∧ push_updates "" (fun _ => NetResult.exc) [⟨2, none, some 8, none, none⟩]
        = ⟨[], [build_params "" ⟨2, none, some 8, none, none⟩], false⟩ :=
  ⟨(claim_C4_forwarding_failures "" (fun _ => NetResult.resp 500 "err")
      [⟨1, none, some 7, none, none⟩]).1 (fun _ h => NetResult.noConfusion h),
   (claim_C4_forwarding_failures "" (fun _ => NetResult.exc)
      [⟨2, none, some 8, none, none⟩]).2 ⟨2, none, some 8, none, none⟩ [] 8 rfl rfl⟩

/-- C9: the skip decision tests only whether `temperature_c` is null: a
reading with `temperature_c = 0.0` (falsy in Python, but not `None`) is
forwarded — the builder's params are the first network call — and no skip
line is emitted for it. -/
theorem claim_C9_zero_forwarded (wk : String)
    (net : List (String × PVal) → NetResult)
    (r : TankReading) (rest : List TankReading)
    (h : r.temperature_c = some 0) :
    (push_updates wk net (r :: rest)).calls.head? = some (build_params wk r)
    ∧ ∀ tid, (push_updates wk net (r :: rest)).lines.head?
        ≠ some (OutLine.skip tid) := by
  simp only [push_updates, h]
  cases hn : net (build_params wk r) with
  | resp c b =>
    constructor
    · rfl
    · intro tid hx
      simp at hx
  | exc =>
    constructor
    · rfl
    · intro tid hx
      simp at hx

theorem claim_C9_zero_forwarded_witness :
    (push_updates "" (fun _ => NetResult.resp 200 "ok")
        [⟨3, none, some 0, none, none⟩]).calls.head?
      = some (build_params "" ⟨3, none, some 0, none, none⟩)
    ∧ ∀ tid, (push_updates "" (fun _ => NetResult.resp 200 "ok")
        [⟨3, none, some 0, none, none⟩]).lines.head?
      ≠ some (OutLine.skip tid) :=
  claim_C9_zero_forwarded "" (fun _ => NetResult.resp 200 "ok")
    ⟨3, none, some 0, none, none⟩ [] rfl
